import Mathlib

/-!
Shallow embedding of `ad-sentinel-vector-tile-updater` (src/updater/updater.js
and its test src/updater/test/basic.js), used to settle the claims of the
natural-language specification against the code.

Conventions of the embedding:
* JavaScript field values are modelled by `JsVal` (undefined, number, string,
  geometry payload); `null` is identified with `undefined`.
* JavaScript numbers appearing in records are modelled as `Int` (the claims
  never depend on fractional record fields); geometry coordinates are
  modelled as `Rat` since longitudes are fractional degrees.
* Fallible evaluation (a thrown `TypeError`, e.g. calling `.substring` on a
  non-string) is modelled by an explicit `crash` result / `Option.none`.
* The event stream delivered by `ReadableSearch` is modelled as the list of
  `data` / `error` events the handlers observe, the implicit `end` event
  being the end of the list.
-/

namespace VectorTileUpdater

/-! ## Geometry model -/

/-- Coordinate pair `(longitude, latitude)` in signed degrees. -/
abbrev Coord : Type := Rat × Rat

/-- Ring: ordered sequence of coordinate pairs (GeoJSON linear ring). -/
abbrev Ring : Type := List Coord

/-- Geometry payload: the `coordinates` member of a GeoJSON Polygon, i.e. a
list of rings, outer boundary first. -/
abbrev Geometry : Type := List Ring

/-- Modelled from the spec: `crossTest` lives in `warp.js`, which is imported
by `updater.js` but is not part of the repository snapshot.  Per spec §4.3 it
walks consecutive vertex pairs of the ring and flags a crossing when the
absolute longitude delta between adjacent vertices exceeds the threshold
(180°) indicating the short path passes through the ±180° discontinuity. -/
def crossTest : Ring → Bool
  | p :: q :: rest => decide (180 < |p.1 - q.1|) || crossTest (q :: rest)
  | _ => false

/-- Modelled from the spec: `warpArray` lives in `warp.js`, which is imported
by `updater.js` but is not part of the repository snapshot.  Per spec §4.3 it
rewrites the ring's longitudes by adding or subtracting 360° to the vertices
on the minority side of the discontinuity (negative-longitude side vs
non-negative side; on a tie the negative side is shifted). -/
def warpArray (r : Ring) : Ring :=
  let negs := (r.filter (fun p => decide (p.1 < 0))).length
  let poss := (r.filter (fun p => decide (0 ≤ p.1))).length
  if negs ≤ poss then
    r.map (fun p => if p.1 < 0 then (p.1 + 360, p.2) else p)
  else
    r.map (fun p => if 0 ≤ p.1 then (p.1 - 360, p.2) else p)

/-! ## JavaScript value primitives -/

/-- Dynamic value stored in a raw Elasticsearch record field. -/
inductive JsVal : Type
  | undefined
  | num (n : Int)
  | str (s : String)
  | geom (g : Geometry)
deriving DecidableEq, Repr

/-- JavaScript truthiness test `!v` (restricted to the values of `JsVal`):
`undefined`, `0` and `""` are falsy, every other modelled value is truthy. -/
def jsFalsy : JsVal → Bool
  | .undefined => true
  | .num n => n == 0
  | .str s => s == ""
  | .geom _ => false

/-- JavaScript string coercion `String(v)` for the modelled values. -/
def jsString : JsVal → String
  | .undefined => "undefined"
  | .num n => toString n
  | .str s => s
  | .geom _ => "[object Object]"

/-- JavaScript `s.substring(i, j)` for constant indices with `i ≤ j`
(the only shape occurring in the source): characters `[i, j)`, clamped to
the string's length. -/
def jsSubstring (s : String) (i j : Nat) : String :=
  String.mk ((s.data.drop i).take (j - i))

/-- JavaScript `s.slice(-1)`: the last character of `s` as a string
(empty when `s` is empty). -/
def jsSliceLast (s : String) : String :=
  String.mk (s.data.drop (s.data.length - 1))

/-- Value of a decimal digit character (table given high digit first). -/
def digitVal : Char → Option Nat
  | '9' => some 9
  | '8' => some 8
  | '7' => some 7
  | '6' => some 6
  | '5' => some 5
  | '4' => some 4
  | '3' => some 3
  | '2' => some 2
  | '1' => some 1
  | '0' => some 0
  | _ => none

/-- Accumulating decimal parse of a character list; fails on the first
non-digit. -/
def parseDigitsAux : List Char → Nat → Option Nat
  | [], acc => some acc
  | c :: rest, acc =>
      match digitVal c with
      | some d => parseDigitsAux rest (acc * 10 + d)
      | none => none

/-- Decimal value of a non-empty all-digit character list. -/
def parseDigits : List Char → Option Nat
  | [] => none
  | l => parseDigitsAux l 0

/-- JavaScript `Number(s)` restricted to the strings the source feeds it
(decimal-digit substrings): `""` coerces to `0`, a digit string to its value,
anything else to NaN, modelled as `none`. -/
def jsNumber (s : String) : Option Int :=
  if s.data = [] then some 0 else (parseDigits s.data).map Int.ofNat

/-- Recursion worker for `zp`.  The source recursion terminates after
exactly `c - n.length` prepends, so running it with fuel `c` (an upper bound
of that number) computes the same function; `zp_eq` below recovers the
source's recursive equation. -/
def zpAux : Nat → String → Nat → String
  | 0, n, _ => n
  | fuel + 1, n, c => if n.length < c then zpAux fuel ("0" ++ n) c else n

/-- Zero padding function `zp(n, c)` of `updater.js`: recursively prepends
`"0"` to the string form of `n` until its length reaches `c`. -/
def zp (n : String) (c : Nat) : String :=
  zpAux c n c

/-! ## Calendar (the `moment` library calls used by the source) -/

/-- Gregorian leap-year rule, as implemented by `moment`. -/
def isLeap (y : Nat) : Bool :=
  y % 4 == 0 && (y % 100 != 0 || y % 400 == 0)

/-- Number of days of month `m` (1-based) in year `y`. -/
def daysInMonth (y m : Nat) : Nat :=
  if m = 2 then (if isLeap y then 29 else 28)
  else if m = 4 ∨ m = 6 ∨ m = 9 ∨ m = 11 then 30
  else 31

/-- One-based day-of-year of the calendar date `(y, m, d)`; this is what
`moment(...).format('DDD')` reports. -/
def dayOfYear (y m d : Nat) : Nat :=
  (List.range (m - 1)).foldl (fun acc i => acc + daysInMonth y (i + 1)) 0 + d

/-- Parse of a date string against the `moment` format `YYYY-MM-DD`
(non-strict parsing reads the leading `YYYY-MM-DD` portion and ignores any
trailing characters; an out-of-range month or day yields an invalid date,
modelled as `none`). -/
def parseISODate (s : String) : Option (Nat × Nat × Nat) :=
  let l := s.data
  if 10 ≤ l.length ∧ l.get? 4 = some '-' ∧ l.get? 7 = some '-' then
    match parseDigits (l.take 4), parseDigits ((l.drop 5).take 2),
        parseDigits ((l.drop 8).take 2) with
    | some y, some m, some d =>
        if 1 ≤ m ∧ m ≤ 12 ∧ 1 ≤ d ∧ d ≤ daysInMonth y m then some (y, m, d) else none
    | _, _, _ => none
  else none

/-- Composition `Number(moment(s, 'YYYY-MM-DD').format('DDD'))` of the
source: the 1-based day-of-year of the parsed date, or NaN (`none`) when the
string does not parse as a valid date. -/
def momentDayOfYear (s : String) : Option Int :=
  (parseISODate s).map (fun t => Int.ofNat (dayOfYear t.1 t.2.1 t.2.2))

/-! ## Raw records and normalization (the `rs.on('data')` handler) -/

/-- Raw Elasticsearch `_source` document; the union of the fields the data
handler reads for the two record types.  A field a document lacks is
`.undefined`. -/
structure RawRecord where
  cloud_coverage : JsVal := .undefined
  date : JsVal := .undefined
  data_geometry : JsVal := .undefined
  tile_geometry : JsVal := .undefined
  path : JsVal := .undefined
  row : JsVal := .undefined
  sceneID : JsVal := .undefined
  utm_zone : JsVal := .undefined
  latitude_band : JsVal := .undefined
  grid_square : JsVal := .undefined
deriving DecidableEq, Repr

/-- Canonical feature pushed onto `geojson.features`: the geometry payload
taken from the record and the flat property set `c`, `d`, `s`, `y`. -/
structure Feature where
  geometry : JsVal
  c : JsVal
  d : Option Int
  s : String
  y : String
deriving DecidableEq, Repr

/-- Result of running the data handler body on one record: the record is
skipped (early `return`), a feature is produced, or the handler throws a
`TypeError` (crash). -/
inductive NormResult : Type
  | skip
  | feature (f : Feature)
  | crash
deriving DecidableEq, Repr

/-- Required-field guard of the `landsat8` branch, exactly as in the source:
`d.cloud_coverage === undefined || !d.date || !d.data_geometry ||
d.path === undefined || d.row === undefined`. -/
def l8Missing (d : RawRecord) : Bool :=
  d.cloud_coverage == .undefined || jsFalsy d.date || jsFalsy d.data_geometry ||
  d.path == .undefined || d.row == .undefined

/-- Required-field guard of the `sentinel2` branch, exactly as in the source:
`d.cloud_coverage === undefined || !d.date || !d.tile_geometry ||
d.utm_zone === undefined || !d.latitude_band || !d.grid_square || !d.path`. -/
def s2Missing (d : RawRecord) : Bool :=
  d.cloud_coverage == .undefined || jsFalsy d.date || jsFalsy d.tile_geometry ||
  d.utm_zone == .undefined || jsFalsy d.latitude_band || jsFalsy d.grid_square ||
  jsFalsy d.path

/-- Data-handler body for a `landsat8` record.  After the guard, the scene
code, day and year are all derived from `d.sceneID` by `substring`; when
`d.sceneID` is not a string this dereference throws (crash). -/
def processL8 (d : RawRecord) : NormResult :=
  if l8Missing d then .skip
  else
    match d.sceneID with
    | .str sid =>
        .feature
          { geometry := d.data_geometry
            c := d.cloud_coverage
            d := jsNumber (jsSubstring sid 13 16)
            s := jsSubstring sid 1 2 ++ jsSubstring sid 18 19 ++
                 jsSubstring sid 20 21 ++ zp (jsString d.path) 3 ++
                 zp (jsString d.row) 3
            y := jsSubstring sid 11 13 }
    | _ => .crash

/-- Data-handler body for a `sentinel2` record.  After the guard, the scene
code calls `d.path.slice(-1)` and the year calls `d.date.substring(2, 4)`;
when either field is a truthy non-string the handler throws (crash). -/
def processS2 (d : RawRecord) : NormResult :=
  if s2Missing d then .skip
  else
    match d.date, d.path with
    | .str ds, .str p =>
        .feature
          { geometry := d.tile_geometry
            c := d.cloud_coverage
            d := momentDayOfYear ds
            s := zp (jsString d.utm_zone) 2 ++ jsString d.latitude_band ++
                 jsString d.grid_square ++ jsSliceLast p
            y := jsSubstring ds 2 4 }
    | _, _ => .crash

/-! ## End-of-stream antimeridian pass (the `rs.on('end')` handler) -/

/-- FeatureCollection document assembled by `buildGeoJSON`. -/
structure FeatureCollection where
  type : String
  features : List Feature
deriving DecidableEq, Repr

/-- Correction of one geometry payload: `coordinates[0]` is tested with
`crossTest` and replaced by `warpArray` of itself when it crosses; all other
rings are not touched.  `coordinates[0]` of an empty coordinates array is
`undefined` in JavaScript, whose handling lives inside the absent `warp.js`;
that case is modelled as a crash (`none`). -/
def correctGeometry : Geometry → Option Geometry
  | [] => none
  | r0 :: rest => some ((if crossTest r0 then warpArray r0 else r0) :: rest)

/-- Correction of one feature: `f.geometry.coordinates[0]` dereferences the
geometry payload, which throws when the payload is not a geometry object. -/
def correctFeature (f : Feature) : Option Feature :=
  match f.geometry with
  | .geom g => (correctGeometry g).map (fun g2 => { f with geometry := .geom g2 })
  | _ => none

/-- End-of-stream pass over the accumulated features, in order; the first
feature whose correction throws aborts the handler (crash). -/
def endPass : List Feature → Option (List Feature)
  | [] => some []
  | f :: fs =>
      match correctFeature f, endPass fs with
      | some f2, some fs2 => some (f2 :: fs2)
      | _, _ => none

/-- Rings of a feature's geometry payload (empty for a non-geometry payload);
used to state which rings the end-of-stream pass may touch. -/
def ringsOf (f : Feature) : Geometry :=
  match f.geometry with
  | .geom g => g
  | _ => []

/-! ## Stream consumption (`ReadableSearch` events) -/

/-- Event observed by the stream handlers: a record delivery or a backend
error.  The `end` event is the end of the event list. -/
inductive StreamEvent : Type
  | data (d : RawRecord)
  | error (e : String)
deriving DecidableEq, Repr

/-- Test for a record-delivery event. -/
def isDataEv : StreamEvent → Bool
  | .data _ => true
  | .error _ => false

/-- Mutable state of one `buildGeoJSON` invocation: the running count, the
accumulated features, the number of progress notifications emitted
(`winston.info` every 1000), and the backend errors logged by the error
handler. -/
structure BuildState where
  count : Nat
  features : List Feature
  progressLogs : Nat
  errorLogs : List String
deriving DecidableEq, Repr

/-- Initial state: `count = 0`, empty feature list, nothing logged. -/
def initBuildState : BuildState :=
  { count := 0, features := [], progressLogs := 0, errorLogs := [] }

/-- Observable core of the state: everything except the error log. -/
def coreOf (st : BuildState) : Nat × List Feature × Nat :=
  (st.count, st.features, st.progressLogs)

/-- One event step.  A `data` event runs the type's handler body: a skip
leaves the state unchanged, a feature is appended and the count incremented,
logging a progress notification when the new count is a multiple of 1000; a
crash (`none`) is a thrown exception.  An `error` event only runs
`winston.error(e)`. -/
def step (proc : RawRecord → NormResult) (st : BuildState) :
    StreamEvent → Option BuildState
  | .error e => some { st with errorLogs := st.errorLogs ++ [e] }
  | .data d =>
      match proc d with
      | .skip => some st
      | .crash => none
      | .feature f =>
          some { st with
                   features := st.features ++ [f]
                   count := st.count + 1
                   progressLogs :=
                     st.progressLogs + (if (st.count + 1) % 1000 == 0 then 1 else 0) }

/-- Consumption of the remaining events from a given state. -/
def consumeFrom (proc : RawRecord → NormResult) (st : BuildState) :
    List StreamEvent → Option BuildState
  | [] => some st
  | ev :: rest =>
      match step proc st ev with
      | none => none
      | some st2 => consumeFrom proc st2 rest

/-- Consumption of a full event stream from the initial state. -/
def consumeEvents (proc : RawRecord → NormResult) (events : List StreamEvent) :
    Option BuildState :=
  consumeFrom proc initBuildState events

/-! ## Query building and `buildGeoJSON` -/

/-- Outcome of the query-type branching at the top of `buildGeoJSON`:
either the query string handed to the Elasticsearch stream, or an immediate
`process.exit` for an unknown data search type. -/
inductive QueryOutcome : Type
  | query (q : String)
  | exitProcess (code : Nat)
deriving DecidableEq, Repr

/-- Query construction of `buildGeoJSON`: `date:<pattern>` with a day/night
filter appended for `landsat8`, unchanged for `sentinel2`, and
`process.exit(1)` for any other type. -/
def buildQuery (pattern ty : String) : QueryOutcome :=
  let q := "date:" ++ pattern
  if ty = "landsat8" then .query (q ++ " AND dayOrNight:\x27DAY\x27")
  else if ty = "sentinel2" then .query q
  else .exitProcess 1

/-- Result of one `buildGeoJSON` invocation: process exit before any backend
interaction (unknown type), a thrown exception in a handler, or the callback
`cb(geojson)` fired at stream end with the final state and collection. -/
inductive BuildResult : Type
  | exitProcess (code : Nat)
  | crash
  | callback (st : BuildState) (geo : FeatureCollection)
deriving DecidableEq, Repr

/-- One `buildGeoJSON(pattern, type, cb)` invocation against a backend whose
stream delivers `events`.  The unknown-type branch exits before the stream is
even created, so its result does not depend on `events` at all. -/
def buildGeoJSON (pattern ty : String) (events : List StreamEvent) : BuildResult :=
  match buildQuery pattern ty with
  | .exitProcess c => .exitProcess c
  | .query _ =>
      match consumeEvents (if ty = "landsat8" then processL8 else processS2) events with
      | none => .crash
      | some st =>
          match endPass st.features with
          | none => .crash
          | some fs => .callback st { type := "FeatureCollection", features := fs }

/-! ## Group pipelines and the scheduler -/

/-- Terminal event of one `mapbox-upload` invocation: exactly one of
`finished` or `error` (progress notifications are observability only and are
not modelled). -/
inductive PublishOutcome : Type
  | finished
  | error (e : String)
deriving DecidableEq, Repr

/-- One unit of work of the run: a date pattern, a record type and the
Mapbox destination identifier. -/
structure Group where
  pattern : String
  type : String
  mapboxID : String
deriving DecidableEq, Repr

/-- External side effect of a group pipeline, in order of occurrence:
a staging write (`writeFileSync`) or an upload invocation. -/
inductive Effect : Type
  | persist (filename : String)
  | publish (mapid : String)
deriving DecidableEq, Repr

/-- Terminal state of one group task: `done(null)`, `done(err)`, a
`process.exit` issued inside the task, or a thrown exception. -/
inductive GroupResult : Type
  | doneOk
  | doneErr (e : String)
  | exitProcess (code : Nat)
  | crash
deriving DecidableEq, Repr

/-- One group task, as built in `groups`: run `buildGeoJSON`; on callback,
an empty collection reports success immediately; otherwise the collection is
written to `<mapboxID>.geojson` and then uploaded, the task completing on the
upload's terminal event. -/
def runGroup (g : Group) (events : List StreamEvent) (pub : PublishOutcome) :
    GroupResult × List Effect :=
  match buildGeoJSON g.pattern g.type events with
  | .exitProcess c => (.exitProcess c, [])
  | .crash => (.crash, [])
  | .callback _ geo =>
      if geo.features.isEmpty then (.doneOk, [])
      else
        let filename := g.mapboxID ++ ".geojson"
        match pub with
        | .finished => (.doneOk, [.persist filename, .publish g.mapboxID])
        | .error e => (.doneErr e, [.persist filename, .publish g.mapboxID])

/-- Group result determined by the upload's terminal event: `finished` maps
to `done(null)`, `error(e)` to `done(e)`. -/
def pubResult : PublishOutcome → GroupResult
  | .finished => .doneOk
  | .error e => .doneErr e

/-- One scheduled task: the group together with its backend stream and its
upload outcome. -/
abbrev Task : Type := Group × List StreamEvent × PublishOutcome

/-- Terminal result of the task. -/
def taskRes (t : Task) : GroupResult :=
  (runGroup t.1 t.2.1 t.2.2).1

/-- Successful task. -/
def taskOk (t : Task) : Prop :=
  taskRes t = .doneOk

instance (t : Task) : Decidable (taskOk t) := by
  unfold taskOk; infer_instance

/-- Identifier of the task's group. -/
def taskId (t : Task) : String :=
  t.1.mapboxID

/-- Process-level outcome of the whole run. -/
inductive RunOutcome : Type
  | exit (code : Nat)
  | crash
deriving DecidableEq, Repr

/-- The `parallelLimit(groups, taskLimit, ...)` run at the default
`taskLimit = 1` (strictly sequential): tasks start in order; the first
`done(err)` makes the final callback fire with the error and the process
exit with code 1, later tasks never starting; if every task reports
`done(null)` the final callback exits with code 0.  A `process.exit` or a
thrown exception inside a task ends the process at once.  The second
component lists the identifiers of the tasks that were started. -/
def runScheduler : List Task → RunOutcome × List String
  | [] => (.exit 0, [])
  | t :: rest =>
      match taskRes t with
      | .doneOk => ((runScheduler rest).1, taskId t :: (runScheduler rest).2)
      | .doneErr _ => (.exit 1, [taskId t])
      | .exitProcess c => (.exit c, [taskId t])
      | .crash => (.crash, [taskId t])

/-! ## Concrete inputs used by witnesses and counterexamples -/

/-- Small non-crossing ring used as a demo geometry payload. -/
def demoRing : Ring := [(0, 0), (1, 0), (1, 1), (0, 0)]

/-- Geometry payload holding only `demoRing`. -/
def demoGeom : Geometry := [demoRing]

/-- The antimeridian-crossing example ring of spec §8. -/
def specRing : Ring := [(-170, 0), (170, 0), (170, 10), (-170, 10), (-170, 0)]

/-- Closed ring that crosses the antimeridian between its first two vertices
and also crosses the prime meridian between adjacent vertices `10` and
`-5`. -/
def primeRing : Ring := [(-179, 0), (179, 0), (10, 0), (-5, 0), (-179, 0)]

/-- Feature whose geometry has a crossing outer ring and an inner ring
(hole). -/
def holedFeature : Feature :=
  { geometry := .geom [specRing, demoRing], c := .num 5, d := some 1,
    s := "x", y := "16" }

/-- The same feature after the end-of-stream pass: the outer ring warped
(its two positive-longitude vertices, the minority side, shifted by -360),
the hole untouched. -/
def holedFeatureWarped : Feature :=
  { holedFeature with
      geometry := .geom
        [[(-170, 0), (-190, 0), (-190, 10), (-170, 10), (-170, 0)], demoRing] }

/-- Fully populated sentinel2 record. -/
def validS2 : RawRecord :=
  { cloud_coverage := .num 10, date := .str "2016-01-02",
    tile_geometry := .geom demoGeom, utm_zone := .num 9,
    latitude_band := .str "A", grid_square := .str "BX", path := .str "QQL" }

/-- Feature the data handler derives from `validS2`. -/
def validS2Feature : Feature :=
  { geometry := .geom demoGeom, c := .num 10, d := some 2, s := "09ABXL",
    y := "16" }

/-- sentinel2 record whose `grid_square` is absent. -/
def invalidS2 : RawRecord := { validS2 with grid_square := .undefined }

/-- landsat8 record carrying every field the landsat8 guard checks
(`cloud_coverage`, `date`, `data_geometry`, `path`, `row`) but no
`sceneID`. -/
def l8NoScene : RawRecord :=
  { cloud_coverage := .num 3, date := .str "2016-10-13",
    data_geometry := .geom demoGeom, path := .num 7, row := .num 12 }

/-- Build state after consuming exactly the single record `validS2`. -/
def oneFeatureState : BuildState :=
  { count := 1, features := [validS2Feature], progressLogs := 0,
    errorLogs := [] }

/-- Event stream delivering 1000 records of which the first lacks a
required field. -/
def c8Events : List StreamEvent :=
  .data invalidS2 :: List.replicate 999 (.data validS2)

/-- Number of records delivered by an event stream. -/
def countDataEvents (events : List StreamEvent) : Nat :=
  (events.filter isDataEv).length

/-- Progress-notification count of an optional build state. -/
def progressOf : Option BuildState → Option Nat
  | none => none
  | some st => some st.progressLogs

/-- sentinel2 group whose stream yields one feature and whose upload
finishes. -/
def okGroup : Group :=
  { pattern := "[2015-01-01 TO 2016-12-31]", type := "sentinel2",
    mapboxID := "ok-group" }

/-- Task built on `okGroup`. -/
def okTask : Task := (okGroup, [.data validS2], .finished)

/-- sentinel2 group whose upload reports an error. -/
def badGroup : Group :=
  { pattern := "[2015-01-01 TO 2016-12-31]", type := "sentinel2",
    mapboxID := "bad-group" }

/-- Task built on `badGroup`: the stream yields one feature, the upload
fails. -/
def failTask : Task := (badGroup, [.data validS2], .error "upload failed")

/-- Group whose record type is neither `landsat8` nor `sentinel2`. -/
def modisGroup : Group :=
  { pattern := "[2015-01-01 TO 2016-12-31]", type := "modis",
    mapboxID := "modis-group" }

/-- Task whose group has a backend error before any record. -/
def c3Task : Task :=
  ({ pattern := "[2015-01-01 TO 2016-12-31]", type := "sentinel2",
     mapboxID := "sentinel-grid" }, [.error "backend down"], .finished)

/-! ## Helper lemmas -/

theorem string_eq_of_data {a b : String} (h : a.data = b.data) : a = b := by
  cases a
  cases b
  exact congrArg String.mk h

theorem string_length_eq_data (s : String) : s.length = s.data.length := rfl

theorem string_append_length (s : String) : ("0" ++ s).length = s.length + 1 := by
  obtain ⟨l⟩ := s
  rfl

theorem string_append_data (s : String) : ("0" ++ s).data = '0' :: s.data := by
  obtain ⟨l⟩ := s
  rfl

theorem zpAux_data : ∀ (fuel : Nat) (n : String) (c : Nat), c - n.length ≤ fuel →
    (zpAux fuel n c).data = List.replicate (c - n.length) '0' ++ n.data := by
  intro fuel
  induction fuel with
  | zero =>
      intro n c h
      have h0 : c - n.length = 0 := by omega
      simp [zpAux, h0]
  | succ k ih =>
      intro n c h
      by_cases hlt : n.length < c
      · have hrec := ih ("0" ++ n) c (by rw [string_append_length]; omega)
        simp only [zpAux, if_pos hlt]
        rw [hrec, string_append_length, string_append_data]
        have h2 : c - n.length = (c - (n.length + 1)) + 1 := by omega
        rw [h2, List.replicate_succ']
        simp
      · have h0 : c - n.length = 0 := by omega
        simp [zpAux, if_neg hlt, h0]

theorem zp_data (n : String) (c : Nat) :
    (zp n c).data = List.replicate (c - n.length) '0' ++ n.data :=
  zpAux_data c n c (by omega)

/-- The recursive equation of the source's `zp`: the fuelled worker computes
the same function as the source's self-recursion. -/
theorem zp_eq (n : String) (c : Nat) :
    zp n c = if n.length < c then zp ("0" ++ n) c else n := by
  by_cases h : n.length < c
  · rw [if_pos h]
    apply string_eq_of_data
    rw [zp_data, zp_data, string_append_length, string_append_data]
    have h2 : c - n.length = (c - (n.length + 1)) + 1 := by omega
    rw [h2, List.replicate_succ']
    simp
  · rw [if_neg h]
    apply string_eq_of_data
    rw [zp_data]
    have h0 : c - n.length = 0 := by omega
    simp [h0]

/-! ## Claim C5 -/

/-- C5: `zp` (the spec's `pad`) left-pads with `"0"`: its characters are
`width - length` zeros followed by the original characters, its length is at
least the target width, it returns the string unchanged once the length
already meets the width, and the four examples of `test/basic.js` hold. -/
theorem c5_zp_is_pad :
    (∀ (s : String) (c : Nat),
        (zp s c).data = List.replicate (c - s.length) '0' ++ s.data ∧
        c ≤ (zp s c).length ∧
        (c ≤ s.length → zp s c = s)) ∧
    zp "a" 3 = "00a" ∧ zp "aa" 3 = "0aa" ∧ zp "aaa" 3 = "aaa" ∧
    zp "a" 1 = "a" := by
  refine ⟨fun s c => ⟨zp_data s c, ?_, ?_⟩, by decide, by decide, by decide,
    by decide⟩
  · have h := congrArg List.length (zp_data s c)
    simp only [List.length_append, List.length_replicate] at h
    rw [string_length_eq_data, h, ← string_length_eq_data s]
    omega
  · intro hle
    apply string_eq_of_data
    rw [zp_data]
    have h0 : c - s.length = 0 := by omega
    simp [h0]

/-- Witness for C5 at a concrete input: the already-wide string is returned
unchanged. -/
theorem c5_zp_is_pad_witness : (3 : Nat) ≤ "aaa".length ∧ zp "aaa" 3 = "aaa" :=
  ⟨by decide, (c5_zp_is_pad.1 "aaa" 3).2.2 (by decide)⟩

/-! ## Claim C2 -/

theorem crossTest_eq_false_iff :
    ∀ r : Ring, crossTest r = false ↔
      List.Chain' (fun p q : Coord => |p.1 - q.1| ≤ 180) r
  | [] => by simp [crossTest]
  | [p] => by simp [crossTest, List.chain'_singleton]
  | p :: q :: rest => by
      show (decide (180 < |p.1 - q.1|) || crossTest (q :: rest)) = false ↔ _
      rw [Bool.or_eq_false_iff, List.chain'_cons, decide_eq_false_iff_not,
        not_lt]
      exact and_congr Iff.rfl (crossTest_eq_false_iff (q :: rest))

theorem chain'_mono_mem {α : Type} {R S : α → α → Prop} :
    ∀ (l : List α), (∀ a ∈ l, ∀ b ∈ l, R a b → S a b) →
      List.Chain' R l → List.Chain' S l := by
  intro l
  induction l with
  | nil => intro _ _; exact List.chain'_nil
  | cons a t ih =>
      intro h hc
      cases t with
      | nil => exact List.chain'_singleton a
      | cons b t2 =>
          rw [List.chain'_cons] at hc ⊢
          refine ⟨h a (by simp) b (by simp) hc.1, ih ?_ hc.2⟩
          intro x hx y hy hr
          exact h x (List.mem_cons_of_mem a hx) y (List.mem_cons_of_mem a hy) hr

/-- C2 (amended): for a ring whose longitudes obey the pre-correction
invariant (within ±180°) and whose adjacent vertices never step across the
prime meridian by less than 180° of longitude (i.e. every adjacent pair on
opposite sides of 0° is at least 180° apart, so the ring wraps only through
the antimeridian), if `crossTest` holds then `crossTest` of `warpArray` of
the ring is false. -/
theorem c2_warp_closure (r : Ring)
    (hrange : ∀ p ∈ r, -180 ≤ p.1 ∧ p.1 ≤ 180)
    (hmer : List.Chain'
      (fun p q : Coord => (p.1 < 0 ↔ q.1 < 0) ∨ 180 ≤ |p.1 - q.1|) r)
    (hcross : crossTest r = true) :
    crossTest (warpArray r) = false := by
  rw [crossTest_eq_false_iff, warpArray]
  split
  · rw [List.chain'_map]
    refine chain'_mono_mem r ?_ hmer
    intro p hp q hq hpq
    obtain ⟨hp1, hp2⟩ := hrange p hp
    obtain ⟨hq1, hq2⟩ := hrange q hq
    by_cases hpn : p.1 < 0 <;> by_cases hqn : q.1 < 0
    · simp only [if_pos hpn, if_pos hqn]
      rw [abs_sub_le_iff]
      constructor <;> linarith
    · simp only [if_pos hpn, if_neg hqn]
      have hq0 : 0 ≤ q.1 := not_lt.mp hqn
      rcases hpq with hiff | hgap
      · exact absurd (hiff.mp hpn) hqn
      · rcases le_abs.mp hgap with hg | hg
        · exact absurd hg (by linarith)
        · rw [abs_sub_le_iff]
          constructor <;> linarith
    · simp only [if_neg hpn, if_pos hqn]
      have hp0 : 0 ≤ p.1 := not_lt.mp hpn
      rcases hpq with hiff | hgap
      · exact absurd (hiff.mpr hqn) hpn
      · rcases le_abs.mp hgap with hg | hg
        · rw [abs_sub_le_iff]
          constructor <;> linarith
        · exact absurd hg (by linarith)
    · simp only [if_neg hpn, if_neg hqn]
      have hp0 : 0 ≤ p.1 := not_lt.mp hpn
      have hq0 : 0 ≤ q.1 := not_lt.mp hqn
      rw [abs_sub_le_iff]
      constructor <;> linarith
  · rw [List.chain'_map]
    refine chain'_mono_mem r ?_ hmer
    intro p hp q hq hpq
    obtain ⟨hp1, hp2⟩ := hrange p hp
    obtain ⟨hq1, hq2⟩ := hrange q hq
    by_cases hpn : 0 ≤ p.1 <;> by_cases hqn : 0 ≤ q.1
    · simp only [if_pos hpn, if_pos hqn]
      rw [abs_sub_le_iff]
      constructor <;> linarith
    · simp only [if_pos hpn, if_neg hqn]
      have hq0 : q.1 < 0 := not_le.mp hqn
      rcases hpq with hiff | hgap
      · exact absurd (hiff.mpr hq0) (not_lt.mpr hpn)
      · rcases le_abs.mp hgap with hg | hg
        · rw [abs_sub_le_iff]
          constructor <;> linarith
        · exact absurd hg (by linarith)
    · simp only [if_neg hpn, if_pos hqn]
      have hp0 : p.1 < 0 := not_le.mp hpn
      rcases hpq with hiff | hgap
      · exact absurd (hiff.mp hp0) (not_lt.mpr hqn)
      · rcases le_abs.mp hgap with hg | hg
        · exact absurd hg (by linarith)
        · rw [abs_sub_le_iff]
          constructor <;> linarith
    · simp only [if_neg hpn, if_neg hqn]
      have hp0 : p.1 < 0 := not_le.mp hpn
      have hq0 : q.1 < 0 := not_le.mp hqn
      rw [abs_sub_le_iff]
      constructor <;> linarith

/-- C2 counterexample: `primeRing` stays within ±180° and `crossTest` flags
it, yet `crossTest` also flags `warpArray` of it — the claimed closure
property fails for a crossing ring that additionally steps across the prime
meridian. -/
theorem c2_counterexample :
    crossTest primeRing = true ∧ crossTest (warpArray primeRing) = true := by
  constructor
  · norm_num [crossTest, primeRing]
  · norm_num [crossTest, warpArray, primeRing]

/-- Witness for C2 on the crossing example ring of spec §8. -/
theorem c2_warp_closure_witness :
    crossTest specRing = true ∧ crossTest (warpArray specRing) = false := by
  have hcross : crossTest specRing = true := by norm_num [crossTest, specRing]
  refine ⟨hcross, c2_warp_closure specRing ?_ ?_ hcross⟩
  · decide
  · norm_num [specRing, List.chain'_cons, List.chain'_singleton]

/-! ## Claim C6 -/

theorem correctFeature_inner (f f2 : Feature)
    (h : correctFeature f = some f2) :
    List.drop 1 (ringsOf f2) = List.drop 1 (ringsOf f) := by
  unfold correctFeature at h
  cases hg : f.geometry with
  | undefined => rw [hg] at h; simp at h
  | num n => rw [hg] at h; simp at h
  | str s => rw [hg] at h; simp at h
  | geom g =>
      rw [hg] at h
      cases g with
      | nil => simp [correctGeometry] at h
      | cons r0 rest =>
          simp only [correctGeometry, Option.map_some'] at h
          obtain rfl := Option.some.inj h
          simp [ringsOf, hg]

/-- C6: the end-of-stream correction pass touches only the outer boundary
ring of each feature's geometry: whenever the pass completes, the output
features correspond one-to-one to the inputs and every inner ring (all rings
after the first) is unchanged. -/
theorem c6_inner_rings_untouched :
    ∀ (fs fs2 : List Feature), endPass fs = some fs2 →
      List.Forall₂
        (fun f f2 => List.drop 1 (ringsOf f2) = List.drop 1 (ringsOf f))
        fs fs2 := by
  intro fs
  induction fs with
  | nil =>
      intro fs2 h
      simp only [endPass, Option.some.injEq] at h
      subst h
      exact List.Forall₂.nil
  | cons f t ih =>
      intro fs2 h
      unfold endPass at h
      cases hcf : correctFeature f with
      | none => rw [hcf] at h; simp at h
      | some f2 =>
          cases hep : endPass t with
          | none => rw [hcf, hep] at h; simp at h
          | some t2 =>
              rw [hcf, hep] at h
              obtain rfl := Option.some.inj h
              exact List.Forall₂.cons (correctFeature_inner f f2 hcf)
                (ih t2 hep)

/-- Witness for C6: a feature with a crossing outer ring and one hole; the
pass warps the outer ring and leaves the hole as it was. -/
theorem c6_inner_rings_untouched_witness :
    List.Forall₂
      (fun f f2 => List.drop 1 (ringsOf f2) = List.drop 1 (ringsOf f))
      [holedFeature] [holedFeatureWarped] :=
  c6_inner_rings_untouched [holedFeature] [holedFeatureWarped] (by
    norm_num [endPass, correctFeature, holedFeature, holedFeatureWarped,
      correctGeometry, crossTest, specRing, warpArray, demoRing])

/-! ## Claim C1 -/

/-- C1 (code bug): the landsat8 guard does not check the scene identifier
(it checks the otherwise-unused `date` field instead), so a record carrying
every guard-checked field but no `sceneID` passes the guard and the handler
then throws dereferencing `d.sceneID.substring` — the record yields a crash,
not a skip.  Removing a guard-checked field (here `row`) does yield a
skip. -/
theorem c1_missing_scene_crashes :
    l8Missing l8NoScene = false ∧ processL8 l8NoScene = .crash ∧
    processL8 { l8NoScene with row := .undefined } = .skip :=
  ⟨by decide, by decide, by decide⟩

/-! ## Claim C3 -/

theorem step_core (proc : RawRecord → NormResult) (st1 st2 : BuildState)
    (d : RawRecord) (h : coreOf st1 = coreOf st2) :
    (step proc st1 (.data d)).map coreOf =
      (step proc st2 (.data d)).map coreOf := by
  simp only [coreOf, Prod.mk.injEq] at h
  obtain ⟨h1, h2, h3⟩ := h
  cases hp : proc d <;> simp [step, hp, coreOf, h1, h2, h3]

theorem consumeFrom_filter :
    ∀ (events : List StreamEvent) (proc : RawRecord → NormResult)
      (st1 st2 : BuildState), coreOf st1 = coreOf st2 →
      (consumeFrom proc st1 events).map coreOf =
        (consumeFrom proc st2 (events.filter isDataEv)).map coreOf := by
  intro events
  induction events with
  | nil => intro proc st1 st2 h; simpa [consumeFrom] using h
  | cons ev rest ih =>
      intro proc st1 st2 h
      cases ev with
      | error e =>
          have hf : (StreamEvent.error e :: rest).filter isDataEv =
              rest.filter isDataEv := by simp [List.filter, isDataEv]
          rw [hf]
          show (consumeFrom proc { st1 with
              errorLogs := st1.errorLogs ++ [e] } rest).map coreOf = _
          exact ih proc _ st2 (by simpa [coreOf] using h)
      | data d =>
          have hf : (StreamEvent.data d :: rest).filter isDataEv =
              .data d :: rest.filter isDataEv := by
            simp [List.filter, isDataEv]
          rw [hf]
          have hstep := step_core proc st1 st2 d h
          cases h1 : step proc st1 (.data d) with
          | none =>
              cases h2 : step proc st2 (.data d) with
              | none => simp [consumeFrom, h1, h2]
              | some s2 => rw [h1, h2] at hstep; simp at hstep
          | some s1 =>
              cases h2 : step proc st2 (.data d) with
              | none => rw [h1, h2] at hstep; simp at hstep
              | some s2 =>
                  rw [h1, h2] at hstep
                  simp only [Option.map_some', Option.some.injEq] at hstep
                  simp only [consumeFrom, h1, h2]
                  exact ih proc s1 s2 hstep

/-- C3 (amended): a backend error during stream consumption is logged and
otherwise ignored: the error handler only appends to the error log, and the
count, features and progress notifications of a consumed stream are exactly
those of the same stream with its error events removed — the group's
pipeline is not failed by a backend error. -/
theorem c3_errors_only_logged :
    (∀ (proc : RawRecord → NormResult) (st : BuildState) (e : String),
        step proc st (.error e) =
          some { st with errorLogs := st.errorLogs ++ [e] }) ∧
    (∀ (proc : RawRecord → NormResult) (events : List StreamEvent),
        (consumeEvents proc events).map coreOf =
          (consumeEvents proc (events.filter isDataEv)).map coreOf) :=
  ⟨fun _ _ _ => rfl,
   fun proc events => consumeFrom_filter events proc initBuildState
     initBuildState rfl⟩

/-- C3 counterexample: a group whose backend stream raises an error (and
delivers no record) completes successfully: the task reports `done(null)`
and the run exits with code 0 — the backend error does not fail the group's
pipeline, contradicting the claim. -/
theorem c3_counterexample :
    taskRes c3Task = .doneOk ∧
    runScheduler [c3Task] = (.exit 0, ["sentinel-grid"]) ∧
    c3Task.2.1 = [.error "backend down"] :=
  ⟨by decide, by decide, rfl⟩

/-! ## Claim C4 -/

/-- C4: a sentinel2 record with all required fields present yields exactly
one feature whose scene code is the zero-left-padded UTM zone (width 2)
followed by the latitude band, the grid square and the last character of the
path string, whose day value is the 1-based day-of-year computed from the
ISO date, and whose year is the 2-character substring of the ISO date at
positions 2 and 3. -/
theorem c4_sentinel2_derivation (d : RawRecord) (z : Int)
    (band sq p ds : String) (y m day : Nat)
    (g : Geometry)
    (hcc : d.cloud_coverage ≠ .undefined)
    (hgeom : d.tile_geometry = .geom g)
    (hz : d.utm_zone = .num z)
    (hband : d.latitude_band = .str band) (hbandne : band ≠ "")
    (hsq : d.grid_square = .str sq) (hsqne : sq ≠ "")
    (hp : d.path = .str p) (hpne : p ≠ "")
    (hdate : d.date = .str ds)
    (hparse : parseISODate ds = some (y, m, day)) :
    processS2 d = .feature
      { geometry := d.tile_geometry
        c := d.cloud_coverage
        d := some (Int.ofNat (dayOfYear y m day))
        s := zp (toString z) 2 ++ band ++ sq ++ jsSliceLast p
        y := jsSubstring ds 2 4 } := by
  have hdsne : ds ≠ "" := by
    intro hde
    rw [hde] at hparse
    simp [parseISODate] at hparse
  have hmiss : s2Missing d = false := by
    simp [s2Missing, jsFalsy, hz, hband, hsq, hp, hdate, hgeom,
      hbandne, hsqne, hpne, hdsne, hcc]
  unfold processS2
  simp only [hmiss, Bool.false_eq_true, if_false]
  rw [hdate, hp]
  simp [momentDayOfYear, hparse, jsString, hz, hband, hsq]

/-- Witness for C4 on the concrete record `validS2`. -/
theorem c4_sentinel2_derivation_witness :
    processS2 validS2 = .feature validS2Feature := by
  have h := c4_sentinel2_derivation validS2 9 "A" "BX" "QQL" "2016-01-02"
    2016 1 2 demoGeom (by decide) rfl rfl rfl (by decide) rfl (by decide)
    rfl (by decide) rfl (by decide)
  exact h.trans (by decide)

/-! ## Concrete pipeline evaluation lemmas -/

theorem crossTest_demoRing : crossTest demoRing = false := by
  norm_num [crossTest, demoRing]

theorem correctFeature_validS2Feature :
    correctFeature validS2Feature = some validS2Feature := by
  simp [correctFeature, validS2Feature, correctGeometry, demoGeom,
    crossTest_demoRing]

theorem endPass_validS2 :
    endPass [validS2Feature] = some [validS2Feature] := by
  simp [endPass, correctFeature_validS2Feature]

theorem processS2_validS2 : processS2 validS2 = .feature validS2Feature := by
  decide

theorem consume_validS2 :
    consumeEvents processS2 [.data validS2] = some oneFeatureState := by
  decide

theorem buildGeoJSON_oneRecord :
    buildGeoJSON "[2015-01-01 TO 2016-12-31]" "sentinel2" [.data validS2] =
      .callback oneFeatureState
        { type := "FeatureCollection", features := [validS2Feature] } := by
  simp [buildGeoJSON, buildQuery, consume_validS2, oneFeatureState,
    endPass_validS2]

theorem runGroup_okTask :
    runGroup okGroup [.data validS2] .finished =
      (.doneOk, [.persist "ok-group.geojson", .publish "ok-group"]) := by
  simp [runGroup, okGroup, buildGeoJSON_oneRecord]

theorem runGroup_failTask :
    runGroup badGroup [.data validS2] (.error "upload failed") =
      (.doneErr "upload failed",
        [.persist "bad-group.geojson", .publish "bad-group"]) := by
  simp [runGroup, badGroup, buildGeoJSON_oneRecord]

theorem taskRes_okTask : taskRes okTask = .doneOk := by
  simp [taskRes, okTask, runGroup_okTask]

theorem taskRes_failTask : taskRes failTask = .doneErr "upload failed" := by
  simp [taskRes, failTask, runGroup_failTask]

/-! ## Claim C7 -/

/-- C7: for a group pipeline whose collection build reaches the callback —
if the built collection is empty the task reports success at once with no
persistence and no publish; otherwise exactly one staging write happens,
then exactly one publish invocation, and the task's terminal state is the
one determined by the publish collaborator's single terminal event. -/
theorem c7_group_pipeline (g : Group) (events : List StreamEvent)
    (pub : PublishOutcome) (st : BuildState) (geo : FeatureCollection)
    (hcb : buildGeoJSON g.pattern g.type events = .callback st geo) :
    (geo.features = [] → runGroup g events pub = (.doneOk, [])) ∧
    (geo.features ≠ [] →
      (runGroup g events pub).2 =
        [.persist (g.mapboxID ++ ".geojson"), .publish g.mapboxID] ∧
      (runGroup g events pub).1 = pubResult pub) := by
  simp only [runGroup, hcb]
  constructor
  · intro he
    simp [he]
  · intro hne
    have hie : geo.features.isEmpty = false := by
      cases hfe : geo.features with
      | nil => exact absurd hfe hne
      | cons a t => rfl
    rw [hie]
    simp only [Bool.false_eq_true, if_false]
    cases pub with
    | finished => exact ⟨rfl, rfl⟩
    | error e0 => exact ⟨rfl, rfl⟩

/-- Witness for C7: a group with one feature and a finishing upload
persists, publishes and succeeds. -/
theorem c7_group_pipeline_witness :
    runGroup okGroup [.data validS2] .finished =
      (.doneOk, [.persist "ok-group.geojson", .publish "ok-group"]) := by
  have h := c7_group_pipeline okGroup [.data validS2] .finished
    oneFeatureState
    { type := "FeatureCollection", features := [validS2Feature] }
    buildGeoJSON_oneRecord
  have h2 := h.2 (by simp)
  refine Prod.ext ?_ ?_
  · exact h2.2.trans rfl
  · exact h2.1.trans (by decide)

/-! ## Claim C8 -/

theorem consumeFrom_progress :
    ∀ (events : List StreamEvent) (proc : RawRecord → NormResult)
      (st st2 : BuildState),
      st.count = st.features.length → st.progressLogs = st.count / 1000 →
      consumeFrom proc st events = some st2 →
      st2.count = st2.features.length ∧
        st2.progressLogs = st2.count / 1000 := by
  intro events
  induction events with
  | nil =>
      intro proc st st2 h1 h2 h
      obtain rfl := Option.some.inj h
      exact ⟨h1, h2⟩
  | cons ev rest ih =>
      intro proc st st2 h1 h2 h
      cases ev with
      | error e =>
          simp only [consumeFrom, step] at h
          refine ih proc _ st2 ?_ ?_ h
          · exact h1
          · exact h2
      | data d =>
          simp only [consumeFrom, step] at h
          cases hp : proc d with
          | skip =>
              rw [hp] at h
              exact ih proc st st2 h1 h2 h
          | crash =>
              rw [hp] at h
              simp at h
          | feature f =>
              rw [hp] at h
              refine ih proc _ st2 ?_ ?_ h
              · simp [h1]
              · show st.progressLogs +
                  (if (st.count + 1) % 1000 == 0 then 1 else 0) =
                    (st.count + 1) / 1000
                rw [h2, Nat.succ_div]
                have hiff : (1000 ∣ st.count + 1) ↔
                    (((st.count + 1) % 1000 == 0) = true) := by
                  rw [Nat.dvd_iff_mod_eq_zero, beq_iff_eq]
                by_cases hd : 1000 ∣ st.count + 1
                · rw [if_pos hd, if_pos (hiff.mp hd)]
                · rw [if_neg hd, if_neg (fun hh => hd (hiff.mpr hh))]

/-- C8 (amended): the progress notifications counted by the stream
consumption equal `floor(features / 1000)` — one per 1000 records that pass
validation and produce a feature; records skipped by the required-field
guard are not counted. -/
theorem c8_progress_per_feature :
    ∀ (proc : RawRecord → NormResult) (events : List StreamEvent)
      (st : BuildState),
      consumeEvents proc events = some st →
      st.count = st.features.length ∧ st.progressLogs = st.count / 1000 :=
  fun proc events st h =>
    consumeFrom_progress events proc initBuildState st rfl rfl h

/-- Witness for C8 on a single-record stream. -/
theorem c8_progress_per_feature_witness :
    consumeEvents processS2 [.data validS2] = some oneFeatureState ∧
    oneFeatureState.count = oneFeatureState.features.length ∧
    oneFeatureState.progressLogs = oneFeatureState.count / 1000 :=
  ⟨consume_validS2,
   c8_progress_per_feature processS2 [.data validS2] oneFeatureState
     consume_validS2⟩

theorem consumeFrom_replicate (proc : RawRecord → NormResult)
    (r : RawRecord) (f : Feature) (hf : proc r = .feature f) :
    ∀ (k : Nat) (st : BuildState), ∃ st2,
      consumeFrom proc st (List.replicate k (.data r)) = some st2 ∧
      st2.count = st.count + k := by
  intro k
  induction k with
  | zero => intro st; exact ⟨st, rfl, rfl⟩
  | succ n ih =>
      intro st
      rw [List.replicate_succ]
      simp only [consumeFrom, step, hf]
      obtain ⟨st2, hc, hcount⟩ := ih _
      refine ⟨st2, hc, ?_⟩
      rw [hcount]
      simp
      omega

theorem consumeFrom_cons_skip (proc : RawRecord → NormResult)
    (st : BuildState) (d : RawRecord) (rest : List StreamEvent)
    (h : proc d = .skip) :
    consumeFrom proc st (.data d :: rest) = consumeFrom proc st rest := by
  simp only [consumeFrom, step, h]

theorem countData_replicate (r : RawRecord) :
    ∀ k : Nat, countDataEvents (List.replicate k (.data r)) = k := by
  intro k
  induction k with
  | zero => rfl
  | succ n ih =>
      rw [List.replicate_succ]
      simp only [countDataEvents, List.filter_cons, isDataEv, if_true,
        List.length_cons] at ih ⊢
      omega

/-- C8 counterexample: a stream of 1000 consumed records whose first record
fails validation emits 0 progress notifications, not
`floor(1000 / 1000) = 1` — the notification counter tracks produced
features, not consumed records. -/
theorem c8_counterexample :
    countDataEvents c8Events = 1000 ∧
    progressOf (consumeEvents processS2 c8Events) = some 0 := by
  constructor
  · have h999 := countData_replicate validS2 999
    simp only [countDataEvents, c8Events, List.filter_cons, isDataEv,
      if_true, List.length_cons] at h999 ⊢
    omega
  · obtain ⟨st2, hc, hcount⟩ := consumeFrom_replicate processS2 validS2
      validS2Feature processS2_validS2 999 initBuildState
    have hsk : processS2 invalidS2 = .skip := by decide
    have hconsume : consumeEvents processS2 c8Events = some st2 := by
      show consumeFrom processS2 initBuildState
        (.data invalidS2 :: List.replicate 999 (.data validS2)) = some st2
      rw [consumeFrom_cons_skip processS2 initBuildState invalidS2 _ hsk]
      exact hc
    have hinv := consumeFrom_progress c8Events processS2 initBuildState st2
      rfl rfl hconsume
    rw [hconsume]
    simp only [progressOf, hinv.2, hcount]
    rfl

/-! ## Claim C9 -/

/-- C9: under the default sequential scheduling, the run exits with code 0
when every task completes successfully, and the first task to fail makes the
run exit with code 1 with no later task ever started. -/
theorem c9_exit_contract :
    (∀ (tasks : List Task), (∀ t ∈ tasks, taskOk t) →
        runScheduler tasks = (.exit 0, tasks.map taskId)) ∧
    (∀ (pre : List Task) (t : Task) (post : List Task) (e : String),
        (∀ t2 ∈ pre, taskOk t2) → taskRes t = .doneErr e →
        runScheduler (pre ++ t :: post) =
          (.exit 1, pre.map taskId ++ [taskId t])) := by
  constructor
  · intro tasks h
    induction tasks with
    | nil => rfl
    | cons t rest ih =>
        have ht : taskRes t = .doneOk := h t (by simp)
        have hrest := ih (fun t2 h2 => h t2 (List.mem_cons_of_mem t h2))
        simp [runScheduler, ht, hrest]
  · intro pre t post e
    induction pre with
    | nil =>
        intro _ hterr
        simp [runScheduler, hterr]
    | cons p pre2 ih =>
        intro hpre hterr
        have hp : taskRes p = .doneOk := hpre p (by simp)
        have hrest := ih (fun t2 h2 => hpre t2 (List.mem_cons_of_mem p h2))
          hterr
        simp [runScheduler, hp, hrest]

/-- Witness for C9: an all-successful batch exits 0; a batch whose second
task fails exits 1 having started only the first two tasks. -/
theorem c9_exit_contract_witness :
    runScheduler [okTask] = (.exit 0, ["ok-group"]) ∧
    runScheduler [okTask, failTask, okTask] =
      (.exit 1, ["ok-group", "bad-group"]) := by
  constructor
  · have h := c9_exit_contract.1 [okTask] (by
      intro t ht
      simp only [List.mem_singleton] at ht
      subst ht
      exact taskRes_okTask)
    exact h.trans (by simp [okTask, taskId, okGroup])
  · have h := c9_exit_contract.2 [okTask] failTask [okTask] "upload failed"
      (by
        intro t ht
        simp only [List.mem_singleton] at ht
        subst ht
        exact taskRes_okTask)
      taskRes_failTask
    exact h.trans (by simp [okTask, failTask, taskId, okGroup, badGroup])

/-! ## Claim C10 -/

/-- C10: a group whose record type is neither `landsat8` nor `sentinel2`
exits the process with code 1 as soon as its task starts: the task's result
is a `process.exit(1)` that does not depend on the backend stream (no query
is ever consumed), produces no staging write and no publish, and ends the
whole run with exit code 1 regardless of any tasks scheduled after it. -/
theorem c10_unknown_type_fatal (g : Group) (events : List StreamEvent)
    (pub : PublishOutcome) (rest : List Task)
    (h1 : g.type ≠ "landsat8") (h2 : g.type ≠ "sentinel2") :
    runGroup g events pub = (.exitProcess 1, []) ∧
    runScheduler ((g, events, pub) :: rest) = (.exit 1, [g.mapboxID]) := by
  have hq : buildQuery g.pattern g.type = .exitProcess 1 := by
    unfold buildQuery
    rw [if_neg h1, if_neg h2]
  have hb : buildGeoJSON g.pattern g.type events = .exitProcess 1 := by
    unfold buildGeoJSON
    rw [hq]
  have hr : runGroup g events pub = (.exitProcess 1, []) := by
    unfold runGroup
    rw [hb]
  refine ⟨hr, ?_⟩
  have ht : taskRes (g, events, pub) = .exitProcess 1 := by
    simp [taskRes, hr]
  simp [runScheduler, ht, taskId]

/-- Witness for C10 on a concrete `modis` group. -/
theorem c10_unknown_type_fatal_witness :
    runGroup modisGroup [] .finished = (.exitProcess 1, []) ∧
    runScheduler [(modisGroup, [], .finished)] =
      (.exit 1, ["modis-group"]) :=
  c10_unknown_type_fatal modisGroup [] .finished [] (by decide) (by decide)

end VectorTileUpdater
